import Mathlib

/-!
Verification development for the wsctrl workspace client.

The definitions below are a shallow embedding of the Rust sources:
  workspace_state.rs      (handle sums, event alphabet, engine state, dispatchers, binding)
  workspace_manager.rs    (command execution, event application, selector resolver, renderer)
  workspace_protocol_ext_v0.rs / workspace_protocol_cosmic_v1.rs (byte-buffer state decoding)
  main.rs                 (an older generation of the event application loop)
  cli.rs                  (selector shapes)

Wayland proxies are identified by their protocol object id (a Nat); equality on
handles in the source is equality of the underlying proxy object, which within a
session is its object id together with its dialect tag.
-/

namespace Wsctrl

/-- The three workspace protocol dialects. -/
inductive Protocol
  | extV0
  | extV1
  | cosmicV1
deriving DecidableEq, Repr

/-- GroupHandle from workspace_state.rs: a tagged union over the three dialects,
modelled as the dialect tag plus the protocol object id. -/
structure GroupHandle where
  proto : Protocol
  oid : Nat
deriving DecidableEq, Repr

/-- WorkspaceHandle from workspace_state.rs: dialect tag plus protocol object id. -/
structure WorkspaceHandle where
  proto : Protocol
  oid : Nat
deriving DecidableEq, Repr

/-- A wl_output proxy, identified by its protocol object id. -/
abbrev WlOutput := Nat

/-- HashSet of State (Active, Urgent, Hidden) from workspace_state.rs,
modelled by one membership flag per possible element. -/
structure StateSet where
  active : Bool
  urgent : Bool
  hidden : Bool
deriving DecidableEq, Repr

/-- Workspace record from workspace_state.rs. The group field stores the owning
group proxy object id (Option of ObjectId in the source). -/
structure Workspace where
  handle : WorkspaceHandle
  name : Option String
  coordinates : Option (List Nat)
  state : StateSet
  group : Option Nat
deriving DecidableEq, Repr

/-- WorkspaceGroup record from workspace_state.rs. -/
structure WorkspaceGroup where
  output : Option WlOutput
  handle : GroupHandle
deriving DecidableEq, Repr

/-- The WorkspaceEvent alphabet from workspace_state.rs. Capability payloads are
bitsets, modelled as Nat. -/
inductive WorkspaceEvent
  | workspaceGroupCreated (g : GroupHandle)
  | workspaceGroupRemoved (g : GroupHandle)
  | workspaceGroupCapabilities (caps : Nat)
  | outputEnter (g : GroupHandle) (o : WlOutput)
  | outputLeave (g : GroupHandle) (o : WlOutput)
  | workspaceEnter (w : WorkspaceHandle) (g : GroupHandle)
  | workspaceLeave (w : WorkspaceHandle) (g : GroupHandle)
  | workspaceCreated (g : Option GroupHandle) (w : WorkspaceHandle)
  | workspaceRemoved (w : WorkspaceHandle)
  | workspaceState (w : WorkspaceHandle) (s : StateSet)
  | workspaceCapabilities (caps : Nat)
  | workspaceCoord (w : WorkspaceHandle) (c : List Nat)
  | workspaceName (w : WorkspaceHandle) (n : String)
deriving DecidableEq, Repr

/-- WorkspaceState from workspace_state.rs: the group and workspace sequences,
the pending event queue, and the two capability registers. The bound manager
handle is carried separately where needed. -/
structure WorkspaceState where
  groups : List WorkspaceGroup
  workspaces : List Workspace
  events : List WorkspaceEvent
  group_cap : Option Nat
  workspace_cap : Option Nat
deriving DecidableEq, Repr

/-- iter_mut().find(p) followed by a mutation of the found element: rewrite the
first element satisfying p with f; none when no element matches. -/
def modifyFirst (p : α → Bool) (f : α → α) : List α → Option (List α)
  | [] => none
  | x :: xs => if p x then some (f x :: xs) else (modifyFirst p f xs).map (x :: ·)

/-- Mutation of the first group matching p; the Bool records the warning emitted
on a missing handle (the map_or_else warn branch in handle_events). -/
def applyFirstGroup (s : WorkspaceState) (p : WorkspaceGroup → Bool)
    (f : WorkspaceGroup → WorkspaceGroup) : WorkspaceState × Bool :=
  match modifyFirst p f s.groups with
  | some gs => ({ s with groups := gs }, false)
  | none => (s, true)

/-- Mutation of the first workspace matching p; the Bool records the warning
emitted on a missing handle. -/
def applyFirstWorkspace (s : WorkspaceState) (p : Workspace → Bool)
    (f : Workspace → Workspace) : WorkspaceState × Bool :=
  match modifyFirst p f s.workspaces with
  | some ws => ({ s with workspaces := ws }, false)
  | none => (s, true)

/-- One arm of WorkspaceManager::handle_events (workspace_manager.rs): apply a
single queued WorkspaceEvent to the state. The Bool result records whether the
arm logged a warning. -/
def handleEvent (s : WorkspaceState) (e : WorkspaceEvent) : WorkspaceState × Bool :=
  match e with
  | .workspaceGroupCreated g =>
      ({ s with groups := s.groups ++ [{ output := none, handle := g }] }, false)
  | .workspaceGroupRemoved g =>
      ({ s with groups := s.groups.filter (fun gr => gr.handle != g) }, false)
  | .workspaceCreated g w =>
      ({ s with workspaces := s.workspaces ++
          [{ handle := w, name := none, coordinates := none,
             state := ⟨false, false, false⟩, group := g.map GroupHandle.oid }] }, false)
  | .workspaceRemoved w =>
      ({ s with workspaces := s.workspaces.filter (fun ws => ws.handle != w) }, false)
  | .outputEnter g o =>
      applyFirstGroup s (fun gr => gr.handle == g) (fun gr => { gr with output := some o })
  | .outputLeave g o =>
      applyFirstGroup s (fun gr => gr.handle == g)
        (fun gr => if gr.output == some o then { gr with output := none } else gr)
  | .workspaceState w st =>
      applyFirstWorkspace s (fun ws => ws.handle == w) (fun ws => { ws with state := st })
  | .workspaceName w n =>
      applyFirstWorkspace s (fun ws => ws.handle == w) (fun ws => { ws with name := some n })
  | .workspaceCoord w c =>
      applyFirstWorkspace s (fun ws => ws.handle == w)
        (fun ws => { ws with coordinates := some c })
  | .workspaceGroupCapabilities caps => ({ s with group_cap := some caps }, false)
  | .workspaceCapabilities caps => ({ s with workspace_cap := some caps }, false)
  | .workspaceEnter w g =>
      applyFirstWorkspace s (fun ws => ws.handle == w) (fun ws => { ws with group := some g.oid })
  | .workspaceLeave w g =>
      match modifyFirst (fun ws => ws.handle == w)
          (fun ws => if ws.group == some g.oid then { ws with group := none } else ws)
          s.workspaces with
      | some wss =>
          ({ s with workspaces := wss },
           match s.workspaces.find? (fun ws => ws.handle == w) with
           | some ws => !(ws.group == some g.oid)
           | none => true)
      | none => (s, true)

/-- The handle_events loop: fold the queued events over the state in arrival order. -/
def handleEvents (s : WorkspaceState) (es : List WorkspaceEvent) : WorkspaceState :=
  es.foldl (fun acc e => (handleEvent acc e).1) s

/-- The Done arms of the three manager dispatchers (workspace_state.rs): drain
the pending queue, then run handle_events on the drained events. -/
def applyPending (s : WorkspaceState) : WorkspaceState :=
  handleEvents { s with events := [] } s.events

theorem applyFirstGroup_events (s : WorkspaceState) (p f) :
    ((applyFirstGroup s p f).1).events = s.events := by
  unfold applyFirstGroup
  cases modifyFirst p f s.groups <;> rfl

theorem applyFirstWorkspace_events (s : WorkspaceState) (p f) :
    ((applyFirstWorkspace s p f).1).events = s.events := by
  unfold applyFirstWorkspace
  cases modifyFirst p f s.workspaces <;> rfl

theorem handleEvent_events (s : WorkspaceState) (e : WorkspaceEvent) :
    ((handleEvent s e).1).events = s.events := by
  cases e <;>
    simp only [handleEvent, applyFirstGroup_events, applyFirstWorkspace_events]
  case workspaceLeave w g =>
    cases modifyFirst (fun ws => ws.handle == w)
        (fun ws => if ws.group == some g.oid then { ws with group := none } else ws)
        s.workspaces <;> rfl

theorem handleEvents_events (s : WorkspaceState) (es : List WorkspaceEvent) :
    (handleEvents s es).events = s.events := by
  induction es generalizing s with
  | nil => rfl
  | cons e es ih =>
      simpa only [handleEvents, List.foldl_cons, handleEvent_events]
        using (handleEvent_events s e ▸ ih ((handleEvent s e).1))

theorem applyPending_events (s : WorkspaceState) : (applyPending s).events = [] := by
  simp only [applyPending, handleEvents_events]

/-- WEnum from wayland_client: either a known enum value or an unknown wire value. -/
inductive WireEnum (α : Type)
  | value (a : α)
  | unknown (n : Nat)
deriving DecidableEq, Repr

/-- The raw server events consumed by the nine Dispatch implementations in
workspace_state.rs, one constructor per (dialect, object, event). Payload object
ids stand for the proxies carried by the wire event; byte buffers are lists of
byte values; the ExtV1 typed state and capability payloads arrive as WEnum. -/
inductive RawEvent
  | cMgrWorkspaceGroup (wg : Nat)
  | cMgrDone
  | cMgrFinished
  | cGrpOutputEnter (h o : Nat)
  | cGrpOutputLeave (h o : Nat)
  | cGrpRemove (h : Nat)
  | cGrpCapabilities (h : Nat)
  | cGrpWorkspace (h w : Nat)
  | cWsState (h : Nat) (bytes : List Nat)
  | cWsName (h : Nat) (n : String)
  | cWsCoordinates (h : Nat) (c : List Nat)
  | cWsRemove (h : Nat)
  | cWsCapabilities (h : Nat)
  | cWsTilingState (h : Nat)
  | e1MgrWorkspaceGroup (wg : Nat)
  | e1MgrDone
  | e1MgrFinished
  | e1MgrWorkspace (w : Nat)
  | e1GrpOutputEnter (h o : Nat)
  | e1GrpOutputLeave (h o : Nat)
  | e1GrpRemoved (h : Nat)
  | e1GrpCapabilities (h : Nat) (caps : WireEnum Nat)
  | e1GrpWorkspaceEnter (h w : Nat)
  | e1GrpWorkspaceLeave (h w : Nat)
  | e1WsState (h : Nat) (st : WireEnum Nat)
  | e1WsName (h : Nat) (n : String)
  | e1WsCoordinates (h : Nat) (c : List Nat)
  | e1WsRemoved (h : Nat)
  | e1WsCapabilities (h : Nat) (caps : WireEnum Nat)
  | e0MgrWorkspaceGroup (wg : Nat)
  | e0MgrDone
  | e0MgrFinished
  | e0GrpOutputEnter (h o : Nat)
  | e0GrpOutputLeave (h o : Nat)
  | e0GrpRemove (h : Nat)
  | e0GrpWorkspace (h w : Nat)
  | e0WsState (h : Nat) (bytes : List Nat)
  | e0WsName (h : Nat) (n : String)
  | e0WsCoordinates (h : Nat) (c : List Nat)
  | e0WsRemove (h : Nat)
deriving DecidableEq, Repr

/-- Whether the raw event is the Done event of one of the three manager dialects. -/
def RawEvent.isDone : RawEvent → Bool
  | .cMgrDone | .e1MgrDone | .e0MgrDone => true
  | _ => false

/-- Push one translated event onto the pending queue. -/
def pushEvent (s : WorkspaceState) (e : WorkspaceEvent) : WorkspaceState :=
  { s with events := s.events ++ [e] }

/-- ExtV1 State bit values from the generated ext-workspace-v1 protocol enum:
active = 1, urgent = 2, hidden = 4; the dispatcher copies each bit that
intersects the typed bitset. -/
def e1StateSet (bits : Nat) : StateSet :=
  ⟨bits &&& 1 != 0, bits &&& 2 != 0, bits &&& 4 != 0⟩

/-- The nine Dispatch event callbacks of workspace_state.rs as one step
function. A raw event either pushes zero or one WorkspaceEvent onto the pending
queue, or (on Done) drains and applies the queue. The Capabilities arm of the
Cosmic group dispatcher is todo!() in the source: it is modelled as an error
(the process panics). -/
def dispatchRaw (s : WorkspaceState) (e : RawEvent) : Except Unit WorkspaceState :=
  match e with
  | .cMgrWorkspaceGroup wg =>
      .ok (pushEvent s (.workspaceGroupCreated ⟨.cosmicV1, wg⟩))
  | .cMgrDone => .ok (applyPending s)
  | .cMgrFinished => .ok s
  | .cGrpOutputEnter h o => .ok (pushEvent s (.outputEnter ⟨.cosmicV1, h⟩ o))
  | .cGrpOutputLeave h o => .ok (pushEvent s (.outputLeave ⟨.cosmicV1, h⟩ o))
  | .cGrpRemove h => .ok (pushEvent s (.workspaceGroupRemoved ⟨.cosmicV1, h⟩))
  | .cGrpCapabilities _ => .error ()
  | .cGrpWorkspace h w =>
      .ok (pushEvent s (.workspaceCreated (some ⟨.cosmicV1, h⟩) ⟨.cosmicV1, w⟩))
  | .cWsState h bytes =>
      if bytes.length != 3 then .ok s
      else .ok (pushEvent s (.workspaceState ⟨.cosmicV1, h⟩
          ⟨bytes.get? 0 == some 0, bytes.get? 1 == some 1, bytes.get? 2 == some 2⟩))
  | .cWsName h n => .ok (pushEvent s (.workspaceName ⟨.cosmicV1, h⟩ n))
  | .cWsCoordinates h c => .ok (pushEvent s (.workspaceCoord ⟨.cosmicV1, h⟩ c))
  | .cWsRemove h => .ok (pushEvent s (.workspaceRemoved ⟨.cosmicV1, h⟩))
  | .cWsCapabilities _ => .ok s
  | .cWsTilingState _ => .ok s
  | .e1MgrWorkspaceGroup wg =>
      .ok (pushEvent s (.workspaceGroupCreated ⟨.extV1, wg⟩))
  | .e1MgrDone => .ok (applyPending s)
  | .e1MgrFinished => .ok s
  | .e1MgrWorkspace w => .ok (pushEvent s (.workspaceCreated none ⟨.extV1, w⟩))
  | .e1GrpOutputEnter h o => .ok (pushEvent s (.outputEnter ⟨.extV1, h⟩ o))
  | .e1GrpOutputLeave h o => .ok (pushEvent s (.outputLeave ⟨.extV1, h⟩ o))
  | .e1GrpRemoved h => .ok (pushEvent s (.workspaceGroupRemoved ⟨.extV1, h⟩))
  | .e1GrpCapabilities _ caps =>
      match caps with
      | .value c => .ok (pushEvent s (.workspaceGroupCapabilities c))
      | .unknown _ => .ok s
  | .e1GrpWorkspaceEnter h w =>
      .ok (pushEvent s (.workspaceEnter ⟨.extV1, w⟩ ⟨.extV1, h⟩))
  | .e1GrpWorkspaceLeave h w =>
      .ok (pushEvent s (.workspaceLeave ⟨.extV1, w⟩ ⟨.extV1, h⟩))
  | .e1WsState h st =>
      match st with
      | .value bits => .ok (pushEvent s (.workspaceState ⟨.extV1, h⟩ (e1StateSet bits)))
      | .unknown _ => .ok s
  | .e1WsName h n => .ok (pushEvent s (.workspaceName ⟨.extV1, h⟩ n))
  | .e1WsCoordinates h c => .ok (pushEvent s (.workspaceCoord ⟨.extV1, h⟩ c))
  | .e1WsRemoved h => .ok (pushEvent s (.workspaceRemoved ⟨.extV1, h⟩))
  | .e1WsCapabilities _ caps =>
      match caps with
      | .value c => .ok (pushEvent s (.workspaceCapabilities c))
      | .unknown _ => .ok s
  | .e0MgrWorkspaceGroup wg =>
      .ok (pushEvent s (.workspaceGroupCreated ⟨.extV0, wg⟩))
  | .e0MgrDone => .ok (applyPending s)
  | .e0MgrFinished => .ok s
  | .e0GrpOutputEnter h o => .ok (pushEvent s (.outputEnter ⟨.extV0, h⟩ o))
  | .e0GrpOutputLeave h o => .ok (pushEvent s (.outputLeave ⟨.extV0, h⟩ o))
  | .e0GrpRemove h => .ok (pushEvent s (.workspaceGroupRemoved ⟨.extV0, h⟩))
  | .e0GrpWorkspace h w =>
      .ok (pushEvent s (.workspaceCreated (some ⟨.extV0, h⟩) ⟨.extV0, w⟩))
  | .e0WsState h bytes =>
      .ok (pushEvent s (.workspaceState ⟨.extV0, h⟩
          ⟨bytes.get? 0 == some 0, bytes.get? 1 == some 1, bytes.get? 2 == some 2⟩))
  | .e0WsName h n => .ok (pushEvent s (.workspaceName ⟨.extV0, h⟩ n))
  | .e0WsCoordinates h c => .ok (pushEvent s (.workspaceCoord ⟨.extV0, h⟩ c))
  | .e0WsRemove h => .ok (pushEvent s (.workspaceRemoved ⟨.extV0, h⟩))

/-- Claim C1: for every raw server event other than the Done event of the bound
dialect, dispatch appends at most one WorkspaceEvent to the pending queue and
leaves the groups and workspaces sequences unchanged; when Done arrives, the
queued events are applied in arrival order (applyPending folds handle_events
over the drained queue) and the pending queue is empty afterwards. -/
theorem c1_dispatch_transactional (s s2 : WorkspaceState) (e : RawEvent)
    (h : dispatchRaw s e = Except.ok s2) :
    (e.isDone = false → s2.groups = s.groups ∧ s2.workspaces = s.workspaces ∧
        (s2.events = s.events ∨ ∃ ev, s2.events = s.events ++ [ev])) ∧
    (e.isDone = true → s2 = applyPending s ∧ s2.events = []) := by
  have hP_push : ∀ ev : WorkspaceEvent,
      (pushEvent s ev).groups = s.groups ∧ (pushEvent s ev).workspaces = s.workspaces ∧
      ((pushEvent s ev).events = s.events ∨ ∃ e2, (pushEvent s ev).events = s.events ++ [e2]) :=
    fun ev => ⟨rfl, rfl, Or.inr ⟨ev, rfl⟩⟩
  have hP_id : s.groups = s.groups ∧ s.workspaces = s.workspaces ∧
      (s.events = s.events ∨ ∃ e2, s.events = s.events ++ [e2]) := ⟨rfl, rfl, Or.inl rfl⟩
  cases e
  case cGrpCapabilities _ =>
    simp only [dispatchRaw] at h
    exact absurd h (by simp)
  case cWsState _ bytes =>
    simp only [dispatchRaw] at h
    split at h <;> (injection h with h; subst h)
    · exact ⟨fun _ => hP_id, fun hd => by simp [RawEvent.isDone] at hd⟩
    · exact ⟨fun _ => hP_push _, fun hd => by simp [RawEvent.isDone] at hd⟩
  case e1GrpCapabilities _ caps =>
    cases caps <;> simp only [dispatchRaw] at h <;> (injection h with h; subst h)
    · exact ⟨fun _ => hP_push _, fun hd => by simp [RawEvent.isDone] at hd⟩
    · exact ⟨fun _ => hP_id, fun hd => by simp [RawEvent.isDone] at hd⟩
  case e1WsState _ st =>
    cases st <;> simp only [dispatchRaw] at h <;> (injection h with h; subst h)
    · exact ⟨fun _ => hP_push _, fun hd => by simp [RawEvent.isDone] at hd⟩
    · exact ⟨fun _ => hP_id, fun hd => by simp [RawEvent.isDone] at hd⟩
  case e1WsCapabilities _ caps =>
    cases caps <;> simp only [dispatchRaw] at h <;> (injection h with h; subst h)
    · exact ⟨fun _ => hP_push _, fun hd => by simp [RawEvent.isDone] at hd⟩
    · exact ⟨fun _ => hP_id, fun hd => by simp [RawEvent.isDone] at hd⟩
  all_goals simp only [dispatchRaw] at h
  all_goals (injection h with h; subst h)
  all_goals
    first
    | exact ⟨fun _ => hP_push _, fun hd => by simp [RawEvent.isDone] at hd⟩
    | exact ⟨fun _ => hP_id, fun hd => by simp [RawEvent.isDone] at hd⟩
    | exact ⟨fun hq => by simp [RawEvent.isDone] at hq,
        fun _ => ⟨rfl, applyPending_events s⟩⟩

/-- A concrete engine state with two pending events, for the C1 witness. -/
def c1ExState : WorkspaceState :=
  { groups := [], workspaces := [],
    events := [.workspaceGroupCreated ⟨.extV0, 3⟩,
               .workspaceCreated (some ⟨.extV0, 3⟩) ⟨.extV0, 4⟩],
    group_cap := none, workspace_cap := none }

/-- Witness for C1 at the ExtV0 Done event on a concrete state with a non-empty
pending queue. -/
theorem c1_dispatch_transactional_witness :
    dispatchRaw c1ExState RawEvent.e0MgrDone = Except.ok (applyPending c1ExState) ∧
    (applyPending c1ExState).events = [] :=
  ⟨rfl, ((c1_dispatch_transactional c1ExState (applyPending c1ExState)
      RawEvent.e0MgrDone rfl).2 rfl).2⟩

/-- The invariant stated by claim C2: every workspace whose group field is set
references a group whose handle is present in the group sequence (the source
compares the stored ObjectId with group.handle.id()). -/
def groupRefsValid (s : WorkspaceState) : Bool :=
  s.workspaces.all (fun ws =>
    ws.group.all (fun gid => s.groups.any (fun gr => gr.handle.oid == gid)))

/-- A pending transaction that creates a group, creates a workspace inside it,
and then removes the group again. -/
def c2ExState : WorkspaceState :=
  { groups := [], workspaces := [],
    events := [.workspaceGroupCreated ⟨.extV1, 10⟩,
               .workspaceCreated (some ⟨.extV1, 10⟩) ⟨.extV1, 11⟩,
               .workspaceGroupRemoved ⟨.extV1, 10⟩],
    group_cap := none, workspace_cap := none }

/-- Claim C2 counterexample: after committing the transaction of c2ExState the
pending queue is empty (a committed snapshot), the group sequence is empty, yet
the surviving workspace still stores group = some 10 — the removed group. The
invariant claimed by C2 is false for this snapshot. -/
theorem c2_invariant_counterexample :
    (applyPending c2ExState).events = [] ∧
    (applyPending c2ExState).groups = [] ∧
    (applyPending c2ExState).workspaces =
      [{ handle := ⟨.extV1, 11⟩, name := none, coordinates := none,
         state := ⟨false, false, false⟩, group := some 10 }] ∧
    groupRefsValid (applyPending c2ExState) = false := by decide

/-- Claim C2 amended: applying a group-removed event removes every group whose
handle matches from the group sequence and leaves the workspace sequence — in
particular every workspace group field — unchanged; a workspace can therefore
be left holding a reference to the removed group, and the claimed invariant
does not hold of committed snapshots in general. -/
theorem c2_group_removed_amended (s : WorkspaceState) (g : GroupHandle) :
    ((handleEvent s (.workspaceGroupRemoved g)).1).workspaces = s.workspaces ∧
    ((handleEvent s (.workspaceGroupRemoved g)).1).groups =
      s.groups.filter (fun gr => gr.handle != g) :=
  ⟨rfl, rfl⟩

/-- The wire requests a command can issue through the handle abstraction. -/
inductive Req
  | activate (w : WorkspaceHandle)
  | deactivate (w : WorkspaceHandle)
  | remove (w : WorkspaceHandle)
  | destroy (w : WorkspaceHandle)
  | assign (w : WorkspaceHandle) (g : GroupHandle)
  | createWorkspace (g : GroupHandle) (n : String)
  | commit
deriving DecidableEq, Repr

/-- WorkspaceHandle::assign from workspace_state.rs: ExtV0 and CosmicV1 report
the unsupported-operation error; ExtV1 issues the wire assign request only when
the group handle is also ExtV1, and reports a mismatch error otherwise. The
result pairs the wire requests issued with the error, if any. -/
def wsAssign (w : WorkspaceHandle) (g : GroupHandle) : List Req × Option String :=
  match w.proto with
  | .extV0 => ([], some "assign request not supported by unstable protocol version")
  | .extV1 =>
      match g.proto with
      | .extV1 => ([Req.assign w g], none)
      | _ => ([], some "assign request workspace and group handle version mismatch")
  | .cosmicV1 => ([], some "assign request not supported by unstable protocol version")

/-- Claim C4: assign succeeds — no error and exactly the one wire assign
request — iff the workspace handle is the ExtV1 variant and the group is an
ExtV1 group; every other variant combination returns an error and issues no
request. -/
theorem c4_assign_iff (w : WorkspaceHandle) (g : GroupHandle) :
    (((wsAssign w g).2 = none ∧ (wsAssign w g).1 = [Req.assign w g]) ↔
      (w.proto = Protocol.extV1 ∧ g.proto = Protocol.extV1)) ∧
    (¬(w.proto = Protocol.extV1 ∧ g.proto = Protocol.extV1) →
      (wsAssign w g).1 = [] ∧ (wsAssign w g).2.isSome = true) := by
  rcases w with ⟨wp, wo⟩
  rcases g with ⟨gp, go⟩
  cases wp <;> cases gp <;> simp [wsAssign]

/-- Witness for C4: an ExtV0 workspace handle with an ExtV1 group issues no
request and reports an error. -/
theorem c4_assign_iff_witness :
    (wsAssign ⟨.extV0, 11⟩ ⟨.extV1, 10⟩).1 = [] ∧
    (wsAssign ⟨.extV0, 11⟩ ⟨.extV1, 10⟩).2.isSome = true :=
  (c4_assign_iff ⟨.extV0, 11⟩ ⟨.extV1, 10⟩).2 (by decide)

/-- Which of the three manager globals the compositor advertises. -/
structure Registry where
  extV0 : Bool
  extV1 : Bool
  cosmicV1 : Bool
deriving DecidableEq, Repr

/-- How WorkspaceState::new can fail: the unsupported --protocol-version
string, the expect panic on a failed preferred bind, or no bindable manager. -/
inductive BindError
  | unsupportedProtocolArg
  | bindPanic
  | protocolUnavailable
deriving DecidableEq, Repr

/-- registry_state.bind_one for one manager interface: succeeds iff the
corresponding global is advertised. -/
def bindOne (reg : Registry) (p : Protocol) : Except Unit Unit :=
  match p with
  | .extV0 => if reg.extV0 then .ok () else .error ()
  | .extV1 => if reg.extV1 then .ok () else .error ()
  | .cosmicV1 => if reg.cosmicV1 then .ok () else .error ()

/-- The manager-binding logic of WorkspaceState::new (workspace_state.rs):
with a preferred dialect string that one is bound (expect panics on failure,
unknown strings are rejected); without one, ExtV0, ExtV1 and CosmicV1 are
tried in that order with the if-let-Ok chain, and the unable-to-bind error is
returned when all three fail. -/
def wsNew (reg : Registry) (protocolVersion : Option String) : Except BindError Protocol :=
  match protocolVersion with
  | some p =>
      if p == "ext_v0" then
        match bindOne reg .extV0 with
        | .ok _ => .ok .extV0
        | .error _ => .error .bindPanic
      else if p == "ext_v1" then
        match bindOne reg .extV1 with
        | .ok _ => .ok .extV1
        | .error _ => .error .bindPanic
      else if p == "cosmic_v1" then
        match bindOne reg .cosmicV1 with
        | .ok _ => .ok .cosmicV1
        | .error _ => .error .bindPanic
      else .error .unsupportedProtocolArg
  | none =>
      match bindOne reg .extV0 with
      | .ok _ => .ok .extV0
      | .error _ =>
          match bindOne reg .extV1 with
          | .ok _ => .ok .extV1
          | .error _ =>
              match bindOne reg .cosmicV1 with
              | .ok _ => .ok .cosmicV1
              | .error _ => .error .protocolUnavailable

/-- Claim C5: with no preferred dialect, construction binds ExtV0 first, then
ExtV1, then CosmicV1 — the first advertised manager wins — and fails with the
protocol-unavailable error, without succeeding or panicking, when none of the
three is advertised. -/
theorem c5_binding_order (reg : Registry) :
    (reg.extV0 = true → wsNew reg none = .ok .extV0) ∧
    (reg.extV0 = false → reg.extV1 = true → wsNew reg none = .ok .extV1) ∧
    (reg.extV0 = false → reg.extV1 = false → reg.cosmicV1 = true →
        wsNew reg none = .ok .cosmicV1) ∧
    (reg.extV0 = false → reg.extV1 = false → reg.cosmicV1 = false →
        wsNew reg none = .error .protocolUnavailable) := by
  rcases reg with ⟨a, b, c⟩
  cases a <;> cases b <;> cases c <;> simp [wsNew, bindOne]

/-- Witness for C5: with only ExtV1 advertised, ExtV1 is bound. -/
theorem c5_binding_order_witness :
    wsNew ⟨false, true, false⟩ none = .ok .extV1 :=
  (c5_binding_order ⟨false, true, false⟩).2.1 rfl rfl

/-- The 32-bit word read from the first four bytes of a state buffer.
The source uses u32::from_ne_bytes on the length-checked buffer; the client
targets are little-endian, matching the little-endian wire order. -/
def leWord (bytes : List Nat) : Nat :=
  (bytes.getD 0 0 % 256) + (bytes.getD 1 0 % 256) * 256 +
    (bytes.getD 2 0 % 256) * 65536 + (bytes.getD 3 0 % 256) * 16777216

/-- The State arm of the ExtV0 workspace dispatcher in
workspace_protocol_ext_v0.rs: the event is dropped unless the buffer is exactly
four bytes; the decoded word is combined by symmetric_difference — XOR — with
WorkspaceStates(7). none models the dropped event. -/
def extV0DecodeState (bytes : List Nat) : Option Nat :=
  if bytes.length != 4 then none
  else some (Nat.xor (leWord bytes) 7)

/-- The State arm of the Cosmic workspace dispatcher in
workspace_protocol_cosmic_v1.rs: same length check and word decode, then
WorkspaceStates::from_bits_retain — the decoded bits are used directly. -/
def cosmicDecodeState (bytes : List Nat) : Option Nat :=
  if bytes.length != 4 then none
  else some (leWord bytes)

/-- Modelled from the spec: the WorkspaceStates bitflags type referenced by the
two protocol dispatcher files is defined in a refactored workspace_state module
that is not present under src/; the spec fixes the bit order as active = 1,
hidden = 2, urgent = 4. This maps decoded bits to the membership view. -/
def workspaceStatesOfBits (bits : Nat) : StateSet :=
  ⟨bits &&& 1 != 0, bits &&& 4 != 0, bits &&& 2 != 0⟩

/-- Claim C3 (code bug): on the four-byte payload 05 00 00 00 both dispatchers
read the little-endian word 5, and a buffer of the wrong length is dropped; the
Cosmic dispatcher uses the decoded bits directly, giving bits 5 — active and
urgent — exactly as the claim states, but the ExtV0 dispatcher XORs the word
with 7 and stores bits 2 — hidden — so the no-XOR-on-either-dialect part of the
claim fails on the ExtV0 source. -/
theorem c3_state_decoding :
    extV0DecodeState [5, 0, 0, 0] = some 2 ∧
    cosmicDecodeState [5, 0, 0, 0] = some 5 ∧
    workspaceStatesOfBits 5 = { active := true, urgent := true, hidden := false } ∧
    workspaceStatesOfBits 2 = { active := false, urgent := false, hidden := true } ∧
    extV0DecodeState [5, 0] = none ∧ cosmicDecodeState [5, 0] = none := by
  decide

/-- The OutputLeave arm of handle_events in main.rs (the older generation,
whose group data stores a list of output proxies in a map keyed by the group):
entry(group).and_modify retains exactly the outputs equal to the leaving
output. -/
def mainOutputLeave (groups : List (Nat × List Nat)) (g : Nat) (o : Nat) :
    List (Nat × List Nat) :=
  groups.map (fun p => if p.1 == g then (p.1, p.2.filter (fun x => x == o)) else p)

/-- A state whose single group 7 currently records output 1. -/
def c6ExState : WorkspaceState :=
  { groups := [{ output := some 1, handle := ⟨.extV1, 7⟩ }],
    workspaces := [], events := [], group_cap := none, workspace_cap := none }

/-- Claim C6 (code bug): with group 7 holding output 1, the main.rs OutputLeave
arm applied with a different output 2 drops output 1 — retain keeps only the
matching output — contradicting the clear-iff-equal semantics; the
workspace_manager.rs arm implements the claim correctly, leaving output 1 in
place on leave(2) and clearing it on leave(1). -/
theorem c6_output_leave_divergence :
    mainOutputLeave [(7, [1])] 7 2 = [(7, [])] ∧
    ((handleEvent c6ExState (.outputLeave ⟨.extV1, 7⟩ 2)).1).groups =
      [{ output := some 1, handle := ⟨.extV1, 7⟩ }] ∧
    ((handleEvent c6ExState (.outputLeave ⟨.extV1, 7⟩ 1)).1).groups =
      [{ output := none, handle := ⟨.extV1, 7⟩ }] := by
  decide

/-- Whether the event references a workspace or group handle that is absent
from the current state (the dangling-reference situation of claim C7). -/
def mentionsUnknownHandle (s : WorkspaceState) : WorkspaceEvent → Bool
  | .workspaceGroupCreated _ => false
  | .workspaceGroupRemoved g => !(s.groups.any (fun gr => gr.handle == g))
  | .workspaceGroupCapabilities _ => false
  | .outputEnter g _ => !(s.groups.any (fun gr => gr.handle == g))
  | .outputLeave g _ => !(s.groups.any (fun gr => gr.handle == g))
  | .workspaceEnter w _ => !(s.workspaces.any (fun ws => ws.handle == w))
  | .workspaceLeave w _ => !(s.workspaces.any (fun ws => ws.handle == w))
  | .workspaceCreated (some g) _ => !(s.groups.any (fun gr => gr.handle == g))
  | .workspaceCreated none _ => false
  | .workspaceRemoved w => !(s.workspaces.any (fun ws => ws.handle == w))
  | .workspaceState w _ => !(s.workspaces.any (fun ws => ws.handle == w))
  | .workspaceCapabilities _ => false
  | .workspaceCoord w _ => !(s.workspaces.any (fun ws => ws.handle == w))
  | .workspaceName w _ => !(s.workspaces.any (fun ws => ws.handle == w))

/-- The events whose handle_events arm looks the target up with iter_mut().find
and logs a warning when the handle is unknown. -/
def isLookupEvent : WorkspaceEvent → Bool
  | .outputEnter _ _ => true
  | .outputLeave _ _ => true
  | .workspaceEnter _ _ => true
  | .workspaceLeave _ _ => true
  | .workspaceState _ _ => true
  | .workspaceName _ _ => true
  | .workspaceCoord _ _ => true
  | _ => false

/-- The empty engine state. -/
def emptyWState : WorkspaceState :=
  { groups := [], workspaces := [], events := [], group_cap := none, workspace_cap := none }

/-- Claim C7 counterexample: a workspace-created event whose group handle is
unknown — the state has no groups at all — changes the state (the workspace is
appended with a dangling group reference) and logs no warning, refuting both
the state-unchanged and the warning parts of the claim. -/
theorem c7_unknown_handle_counterexample :
    mentionsUnknownHandle emptyWState
      (.workspaceCreated (some ⟨.extV1, 10⟩) ⟨.extV1, 11⟩) = true ∧
    (handleEvent emptyWState
      (.workspaceCreated (some ⟨.extV1, 10⟩) ⟨.extV1, 11⟩)).1 ≠ emptyWState ∧
    (handleEvent emptyWState
      (.workspaceCreated (some ⟨.extV1, 10⟩) ⟨.extV1, 11⟩)).2 = false := by
  decide

theorem modifyFirst_eq_none {α : Type} {p : α → Bool} {f : α → α} {l : List α}
    (h : ∀ x ∈ l, p x = false) : modifyFirst p f l = none := by
  induction l with
  | nil => rfl
  | cons x xs ih =>
      simp [modifyFirst, h x (List.mem_cons_self x xs),
        ih (fun y hy => h y (List.mem_cons_of_mem x hy))]

theorem applyFirstGroup_not_found (s : WorkspaceState) (p f)
    (h : ∀ gr ∈ s.groups, p gr = false) : applyFirstGroup s p f = (s, true) := by
  simp [applyFirstGroup, modifyFirst_eq_none h]

theorem applyFirstWorkspace_not_found (s : WorkspaceState) (p f)
    (h : ∀ ws ∈ s.workspaces, p ws = false) : applyFirstWorkspace s p f = (s, true) := by
  simp [applyFirstWorkspace, modifyFirst_eq_none h]

/-- Claim C7 amended: applying a queued event that references an unknown
workspace or group handle never panics (the application function is total) and
behaves as follows: every event except workspace-created leaves the state
unchanged; workspace-created appends the workspace even when its group handle
is unknown, leaving a dangling group reference; the lookup events — output
enter and leave, workspace enter and leave, state, name, coordinates — log a
warning, while removal and creation events are silently accepted. -/
theorem c7_unknown_handle_amended (s : WorkspaceState) (e : WorkspaceEvent)
    (h : mentionsUnknownHandle s e = true) :
    ((∀ g w, e ≠ .workspaceCreated g w) → (handleEvent s e).1 = s) ∧
    (∀ g w, e = .workspaceCreated (some g) w →
        (handleEvent s e).1 = { s with workspaces := s.workspaces ++
          [{ handle := w, name := none, coordinates := none,
             state := ⟨false, false, false⟩, group := some g.oid }] }) ∧
    (handleEvent s e).2 = isLookupEvent e := by
  cases e with
  | workspaceGroupCreated g => simp [mentionsUnknownHandle] at h
  | workspaceGroupCapabilities c => simp [mentionsUnknownHandle] at h
  | workspaceCapabilities c => simp [mentionsUnknownHandle] at h
  | workspaceGroupRemoved g =>
      have h2 : ∀ gr ∈ s.groups, (gr.handle == g) = false := by
        simpa [mentionsUnknownHandle] using h
      have hf : s.groups.filter (fun gr => gr.handle != g) = s.groups :=
        List.filter_eq_self.mpr (fun gr hm => by simp [bne, h2 gr hm])
      refine ⟨fun _ => ?_, fun g2 w2 heq => by simp at heq, rfl⟩
      simp [handleEvent, hf]
  | workspaceRemoved w =>
      have h2 : ∀ ws ∈ s.workspaces, (ws.handle == w) = false := by
        simpa [mentionsUnknownHandle] using h
      have hf : s.workspaces.filter (fun ws => ws.handle != w) = s.workspaces :=
        List.filter_eq_self.mpr (fun ws hm => by simp [bne, h2 ws hm])
      refine ⟨fun _ => ?_, fun g2 w2 heq => by simp at heq, rfl⟩
      simp [handleEvent, hf]
  | workspaceCreated g w =>
      refine ⟨fun hne => absurd rfl (hne g w), fun g2 w2 heq => ?_, ?_⟩
      · cases heq
        simp [handleEvent]
      · cases g <;> simp [handleEvent, isLookupEvent]
  | outputEnter g o =>
      have h2 : ∀ gr ∈ s.groups, (gr.handle == g) = false := by
        simpa [mentionsUnknownHandle] using h
      refine ⟨fun _ => ?_, fun g2 w2 heq => by simp at heq, ?_⟩ <;>
        simp [handleEvent, applyFirstGroup_not_found s _ _ h2, isLookupEvent]
  | outputLeave g o =>
      have h2 : ∀ gr ∈ s.groups, (gr.handle == g) = false := by
        simpa [mentionsUnknownHandle] using h
      refine ⟨fun _ => ?_, fun g2 w2 heq => by simp at heq, ?_⟩ <;>
        simp [handleEvent, applyFirstGroup_not_found s _ _ h2, isLookupEvent]
  | workspaceEnter w g =>
      have h2 : ∀ ws ∈ s.workspaces, (ws.handle == w) = false := by
        simpa [mentionsUnknownHandle] using h
      refine ⟨fun _ => ?_, fun g2 w2 heq => by simp at heq, ?_⟩ <;>
        simp [handleEvent, applyFirstWorkspace_not_found s _ _ h2, isLookupEvent]
  | workspaceLeave w g =>
      have h2 : ∀ ws ∈ s.workspaces, (ws.handle == w) = false := by
        simpa [mentionsUnknownHandle] using h
      have hm : modifyFirst (fun ws => ws.handle == w)
          (fun ws => if ws.group == some g.oid then { ws with group := none } else ws)
          s.workspaces = none := modifyFirst_eq_none h2
      exact ⟨fun _ => by simp only [handleEvent]; rw [hm],
             fun g2 w2 heq => by simp at heq,
             by simp only [handleEvent]; rw [hm]; rfl⟩
  | workspaceState w st =>
      have h2 : ∀ ws ∈ s.workspaces, (ws.handle == w) = false := by
        simpa [mentionsUnknownHandle] using h
      refine ⟨fun _ => ?_, fun g2 w2 heq => by simp at heq, ?_⟩ <;>
        simp [handleEvent, applyFirstWorkspace_not_found s _ _ h2, isLookupEvent]
  | workspaceName w n =>
      have h2 : ∀ ws ∈ s.workspaces, (ws.handle == w) = false := by
        simpa [mentionsUnknownHandle] using h
      refine ⟨fun _ => ?_, fun g2 w2 heq => by simp at heq, ?_⟩ <;>
        simp [handleEvent, applyFirstWorkspace_not_found s _ _ h2, isLookupEvent]
  | workspaceCoord w c =>
      have h2 : ∀ ws ∈ s.workspaces, (ws.handle == w) = false := by
        simpa [mentionsUnknownHandle] using h
      refine ⟨fun _ => ?_, fun g2 w2 heq => by simp at heq, ?_⟩ <;>
        simp [handleEvent, applyFirstWorkspace_not_found s _ _ h2, isLookupEvent]

/-- Witness for the amended C7 at an output-enter event whose group is unknown
in the empty state. -/
theorem c7_unknown_handle_amended_witness :
    (handleEvent emptyWState (.outputEnter ⟨.extV1, 5⟩ 9)).1 = emptyWState :=
  (c7_unknown_handle_amended emptyWState (.outputEnter ⟨.extV1, 5⟩ 9) (by decide)).1
    (fun g w hne => WorkspaceEvent.noConfusion hne)

/-- WorkspaceSelector from cli.rs: the mutually exclusive workspace selection
options, including the coordinates option. -/
structure WorkspaceSelector where
  active : Bool
  index : Option Nat
  name : Option String
  protocol_id : Option Nat
  coordinates : Option (List Nat)
deriving DecidableEq, Repr

/-- OutputSelector from cli.rs. -/
structure OutputSelector where
  output_name : Option String
  output_protocol_id : Option Nat
deriving DecidableEq, Repr

/-- ListArgs from cli.rs. -/
structure ListArgs where
  output : Option OutputSelector
  outputs_only : Bool
  json : Bool
deriving DecidableEq, Repr

/-- WorkspaceGroup::get_output_name: the name the external output collaborator
records for the group output proxy, when both exist. The collaborator is the
function argument. -/
def getOutputName (outName : Nat → Option String) (gr : WorkspaceGroup) : Option String :=
  gr.output.bind outName

/-- WorkspaceManager::group_from_output (workspace_manager.rs): find the first
group whose output name matches, or — with a protocol id selector — whose
output proxy id matches; fail when neither selector is present. -/
def groupFromOutput (outName : Nat → Option String) (groups : List WorkspaceGroup)
    (sel : OutputSelector) : Except String WorkspaceGroup :=
  match sel.output_name with
  | some n =>
      match groups.find? (fun gr => (getOutputName outName gr).any (fun m => m == n)) with
      | some gr => .ok gr
      | none => .error ("Unable to find output with name " ++ n ++ "!")
  | none =>
      match sel.output_protocol_id with
      | some pid =>
          match groups.find? (fun gr => gr.output.any (fun o => o == pid)) with
          | some gr => .ok gr
          | none => .error ("Unable to find output with protocol id " ++ toString pid ++ "!")
      | none => .error "No output/group found for provided selection!"

/-- Ascending protocol-id order on workspaces. -/
def wsLe (a b : Workspace) : Prop := a.handle.oid ≤ b.handle.oid

instance : DecidableRel wsLe := fun a b => Nat.decLe a.handle.oid b.handle.oid

instance : IsTotal Workspace wsLe := ⟨fun a b => Nat.le_total a.handle.oid b.handle.oid⟩

instance : IsTrans Workspace wsLe := ⟨fun _ _ _ hab hbc => Nat.le_trans hab hbc⟩

/-- Ascending protocol-id order on groups. -/
def grLe (a b : WorkspaceGroup) : Prop := a.handle.oid ≤ b.handle.oid

instance : DecidableRel grLe := fun a b => Nat.decLe a.handle.oid b.handle.oid

instance : IsTotal WorkspaceGroup grLe := ⟨fun a b => Nat.le_total a.handle.oid b.handle.oid⟩

instance : IsTrans WorkspaceGroup grLe := ⟨fun _ _ _ hab hbc => Nat.le_trans hab hbc⟩

/-- sort_unstable_by on the protocol ids of the workspace sequence. -/
def sortWorkspacesByPid (l : List Workspace) : List Workspace :=
  List.insertionSort wsLe l

/-- sort_unstable_by on the protocol ids of the group sequence. -/
def sortGroupsByPid (l : List WorkspaceGroup) : List WorkspaceGroup :=
  List.insertionSort grLe l

/-- The selection chain of workspace_from_selection: active, then index —
after sorting by protocol id — then name, then protocol id, in source order;
any other selector falls through to the generic error. The coordinates option
has no arm. -/
def selectFromCandidates (sel : WorkspaceSelector) (workspaces : List Workspace) :
    Except String Workspace :=
  if sel.active then
    match workspaces.find? (fun ws => ws.state.active) with
    | some ws => .ok ws
    | none => .error "Unable to find active workspace!"
  else
    match sel.index with
    | some i =>
        match (sortWorkspacesByPid workspaces).get? i with
        | some ws => .ok ws
        | none => .error ("Unable to find workspace with index " ++ toString i)
    | none =>
        match sel.name with
        | some n =>
            match workspaces.find? (fun ws => ws.name.any (fun m => m == n)) with
            | some ws => .ok ws
            | none => .error ("Unable to find workspace with name " ++ n)
        | none =>
            match sel.protocol_id with
            | some pid =>
                match workspaces.find? (fun ws => ws.handle.oid == pid) with
                | some ws => .ok ws
                | none =>
                    .error ("Unable to find workspace with protocol id " ++ toString pid)
            | none => .error "No workspace handle for provided selector found!"

/-- The candidate set of workspace_from_selection: all workspaces, or — when an
output selector is supplied — the workspaces of the resolved group. -/
def scopeCandidates (outName : Nat → Option String) (st : WorkspaceState)
    (output : Option OutputSelector) : Except String (List Workspace) :=
  match output with
  | some o =>
      match groupFromOutput outName st.groups o with
      | .error e => .error e
      | .ok gr =>
          .ok (st.workspaces.filter (fun ws => ws.group.any (fun g => gr.handle.oid == g)))
  | none => .ok st.workspaces

/-- WorkspaceManager::workspace_from_selection (workspace_manager.rs): scope
the candidates, then run the selection chain. -/
def workspaceFromSelection (outName : Nat → Option String) (st : WorkspaceState)
    (sel : WorkspaceSelector) (output : Option OutputSelector) :
    Except String Workspace :=
  match scopeCandidates outName st output with
  | .error e => .error e
  | .ok workspaces => selectFromCandidates sel workspaces

/-- A workspace at protocol id 11 with coordinates 0,0 inside group 10. -/
def c8ExWorkspace : Workspace :=
  { handle := ⟨.extV1, 11⟩, name := some "one", coordinates := some [0, 0],
    state := ⟨false, false, false⟩, group := some 10 }

/-- A state holding group 10 and the workspace c8ExWorkspace. -/
def c8ExState : WorkspaceState :=
  { groups := [{ output := some 1, handle := ⟨.extV1, 10⟩ }],
    workspaces := [c8ExWorkspace], events := [],
    group_cap := none, workspace_cap := none }

/-- The pure coordinates selector, coordinates 0,0. -/
def c8Sel : WorkspaceSelector :=
  { active := false, index := none, name := none, protocol_id := none,
    coordinates := some [0, 0] }

/-- Claim C8 counterexample: with a candidate workspace whose coordinates are
exactly the selector coordinates 0,0, resolution does not return it — and does
not report a coordinate arity or not-found failure — but falls through to the
generic no-selector error: the resolver has no coordinates arm at all. -/
theorem c8_coordinates_counterexample :
    workspaceFromSelection (fun _ => none) c8ExState c8Sel none =
      .error "No workspace handle for provided selector found!" ∧
    c8Sel.coordinates = some [0, 0] ∧
    c8ExWorkspace.coordinates = some [0, 0] ∧
    c8ExState.workspaces = [c8ExWorkspace] ∧
    workspaceFromSelection (fun _ => none) c8ExState c8Sel none ≠ .ok c8ExWorkspace := by
  refine ⟨rfl, rfl, rfl, rfl, fun hc => ?_⟩
  rw [show workspaceFromSelection (fun _ => none) c8ExState c8Sel none =
      .error "No workspace handle for provided selector found!" from rfl] at hc
  exact Except.noConfusion hc

/-- Claim C8 amended: the coordinates selector is not implemented by the
resolver; whenever none of active, index, name and protocol id is set —
regardless of the coordinates option — resolution never succeeds, and with no
output scope it fails with the generic no-selector error, never with a
coordinate arity mismatch or coordinate-not-found failure. -/
theorem c8_coordinates_amended (outName : Nat → Option String) (st : WorkspaceState)
    (sel : WorkspaceSelector) (output : Option OutputSelector)
    (ha : sel.active = false) (hi : sel.index = none) (hn : sel.name = none)
    (hp : sel.protocol_id = none) :
    (workspaceFromSelection outName st sel output).isOk = false ∧
    (output = none →
      workspaceFromSelection outName st sel none =
        .error "No workspace handle for provided selector found!") := by
  constructor
  · cases output with
    | none =>
        simp [workspaceFromSelection, scopeCandidates, selectFromCandidates,
          ha, hi, hn, hp, Except.isOk, Except.toBool]
    | some o =>
        cases hg : groupFromOutput outName st.groups o <;>
          simp [workspaceFromSelection, scopeCandidates, selectFromCandidates,
            hg, ha, hi, hn, hp, Except.isOk, Except.toBool]
  · intro ho
    simp [workspaceFromSelection, scopeCandidates, selectFromCandidates, ha, hi, hn, hp]

/-- Witness for the amended C8 on the concrete coordinates-only selection. -/
theorem c8_coordinates_amended_witness :
    workspaceFromSelection (fun _ => none) c8ExState c8Sel none =
      .error "No workspace handle for provided selector found!" :=
  (c8_coordinates_amended (fun _ => none) c8ExState c8Sel none rfl rfl rfl rfl).2 rfl

/-- The state effect of WorkspaceManager::print_data (workspace_manager.rs):
both sequences are sorted by protocol id in place (sort_unstable_by on self),
and, when an output filter is supplied, the state retains only the workspaces
of the matching group and the group itself before rendering. The printed text
is not modelled; the error is the group_from_output failure. -/
def printDataState (outName : Nat → Option String) (st : WorkspaceState)
    (args : ListArgs) : Except String WorkspaceState :=
  let st1 : WorkspaceState :=
    { st with workspaces := sortWorkspacesByPid st.workspaces,
              groups := sortGroupsByPid st.groups }
  match args.output with
  | some o =>
      match groupFromOutput outName st1.groups o with
      | .error e => .error e
      | .ok gr =>
          .ok { st1 with
                workspaces := st1.workspaces.filter
                  (fun ws => ws.group.any (fun g => g == gr.handle.oid)),
                groups := st1.groups.filter (fun g2 => g2.handle.oid == gr.handle.oid) }
  | none => .ok st1

/-- A bare workspace at the given protocol id. -/
def c9W (pid : Nat) : Workspace :=
  { handle := ⟨.extV1, pid⟩, name := none, coordinates := none,
    state := ⟨false, false, false⟩, group := none }

/-- A state whose workspace sequence is out of protocol-id order. -/
def c9ExState : WorkspaceState :=
  { groups := [], workspaces := [c9W 12, c9W 11], events := [],
    group_cap := none, workspace_cap := none }

/-- Claim C9 counterexample: listing with no output filter and no JSON flag
reorders the workspace sequence of the engine state — print_data sorts the
sequences in place through a mutable borrow — so the sequences after rendering
are not equal to their values before. -/
theorem c9_render_counterexample :
    printDataState (fun _ => none) c9ExState ⟨none, false, false⟩ =
      .ok { c9ExState with workspaces := [c9W 11, c9W 12] } ∧
    [c9W 11, c9W 12] ≠ c9ExState.workspaces := by
  refine ⟨rfl, by decide⟩

/-- Claim C9 amended: rendering mutates the engine state: with no output filter
the groups and workspaces sequences are permuted into ascending protocol-id
order (and with a filter additionally narrowed to the matching group); the
element multisets are preserved and the results are sorted, but the sequences
are not left unchanged. -/
theorem c9_render_amended (outName : Nat → Option String) (st : WorkspaceState)
    (args : ListArgs) (h : args.output = none) :
    printDataState outName st args =
      .ok { st with workspaces := sortWorkspacesByPid st.workspaces,
                    groups := sortGroupsByPid st.groups } ∧
    (sortWorkspacesByPid st.workspaces).Perm st.workspaces ∧
    (sortGroupsByPid st.groups).Perm st.groups ∧
    List.Sorted wsLe (sortWorkspacesByPid st.workspaces) ∧
    List.Sorted grLe (sortGroupsByPid st.groups) := by
  refine ⟨?_, List.perm_insertionSort _ _, List.perm_insertionSort _ _,
    List.sorted_insertionSort _ _, List.sorted_insertionSort _ _⟩
  simp [printDataState, h]

/-- Witness for the amended C9 on the concrete out-of-order state. -/
theorem c9_render_amended_witness :
    printDataState (fun _ => none) c9ExState ⟨none, false, false⟩ =
      .ok { c9ExState with workspaces := sortWorkspacesByPid c9ExState.workspaces,
                           groups := sortGroupsByPid c9ExState.groups } :=
  (c9_render_amended (fun _ => none) c9ExState ⟨none, false, false⟩ rfl).1

/-- The Remove arm of WorkspaceManager::exec (workspace_manager.rs): resolve
the workspace from the selector, then issue remove, then destroy on its handle,
then commit on the manager; the result lists the wire requests in issue order. -/
def execRemove (outName : Nat → Option String) (st : WorkspaceState)
    (sel : WorkspaceSelector) (output : Option OutputSelector) :
    Except String (List Req) :=
  match workspaceFromSelection outName st sel output with
  | .error e => .error e
  | .ok ws => .ok [Req.remove ws.handle, Req.destroy ws.handle, Req.commit]

/-- Claim C10: whenever the selector resolves to a workspace, the remove
command issues the remove request and then the destroy request on that
workspace handle, in that order, before the commit — not only the remove. -/
theorem c10_remove_issues_destroy (outName : Nat → Option String)
    (st : WorkspaceState) (sel : WorkspaceSelector) (output : Option OutputSelector)
    (ws : Workspace)
    (h : workspaceFromSelection outName st sel output = .ok ws) :
    execRemove outName st sel output =
      .ok [Req.remove ws.handle, Req.destroy ws.handle, Req.commit] := by
  simp [execRemove, h]

/-- A workspace and state for the C10 witness. -/
def c10ExState : WorkspaceState :=
  { groups := [], workspaces := [c9W 21], events := [],
    group_cap := none, workspace_cap := none }

/-- The protocol-id selector for workspace 21. -/
def c10Sel : WorkspaceSelector :=
  { active := false, index := none, name := none, protocol_id := some 21,
    coordinates := none }

/-- Witness for C10: removing workspace 21 by protocol id issues remove 21,
destroy 21, commit. -/
theorem c10_remove_issues_destroy_witness :
    execRemove (fun _ => none) c10ExState c10Sel none =
      .ok [Req.remove ⟨.extV1, 21⟩, Req.destroy ⟨.extV1, 21⟩, Req.commit] :=
  c10_remove_issues_destroy (fun _ => none) c10ExState c10Sel none (c9W 21) rfl

end Wsctrl
